import Mathlib

/-!
A shallow embedding of `src/allocation.cc` (namespace v8::internal): the
pressure-retry allocation policy, the paged allocation free functions, and the
`VirtualMemory` reservation handle, together with theorems settling the spec's
claims about them.

Modelling conventions:
- Machine addresses and sizes (`Address` = `uintptr_t`, `size_t`) are `Nat`;
  `kNullAddress` is `0`, matching the source's null sentinel.  No arithmetic in
  the verified paths overflows a 64-bit word at the inputs considered, and
  theorems carry explicit no-underflow hypotheses where `size_t` subtraction
  occurs.
- The platform page allocator and the platform pressure callback are external
  collaborators: they are modelled as structures of response functions
  (`PageAllocatorModel`, `PlatformModel`), so a theorem quantifying over them
  covers every collaborator behaviour.
- Calls into the collaborators are recorded in an explicit `CallLog`, threaded
  through the functions in source order, so that claims about which primitive
  calls happen, with which arguments, become statements about the log.
- For the handle-mutating operations (`Free`, `Release`) the recorded call
  carries the handle state at the moment the underlying primitive is invoked
  (`stateAtCall`), making the source's reset-before-call ordering observable.
- `CHECK(...)` is fatal in all builds and is modelled by an `Option` result
  (`none` = process abort).  `DCHECK(...)` is a no-op in release builds; the
  checked preconditions appear as theorem hypotheses instead.
- `LEAK_SANITIZER` blocks are conditionally compiled instrumentation with no
  effect on the values computed and are not modelled.
-/

/-- Page permissions, from `v8::PageAllocator::Permission`.  The source uses
`kNoAccess` and `kReadWrite`. -/
inductive Permission where
  | kNoAccess
  | kReadWrite
  | kReadWriteExecute
  | kReadExecute
deriving DecidableEq, Repr

/-- Model of the external `v8::PageAllocator` capability: its two granularity
constants and the responses of its four primitive operations.
`allocResult i` is the address returned by the `i`-th `AllocatePages` primitive
call inside one retry loop (`0` = `nullptr`, allocation failure); the other
three fields give the boolean result of the corresponding primitive at the
given arguments. -/
structure PageAllocatorModel where
  allocatePageSize : Nat
  commitPageSize : Nat
  allocResult : Nat → Nat
  freePagesResult : Nat → Nat → Bool
  releasePagesResult : Nat → Nat → Nat → Bool
  setPermissionsResult : Nat → Nat → Permission → Bool

/-- Model of the external platform (`V8::GetCurrentPlatform()`):
`sizedPressureResult len` is what the sized `OnCriticalMemoryPressure(length)`
overload returns when invoked with `len`. -/
structure PlatformModel where
  sizedPressureResult : Nat → Bool

/-- One primitive `page_allocator->AllocatePages(hint, size, alignment, access)`
call, as recorded in the log. -/
structure AllocCall where
  hint : Nat
  size : Nat
  alignment : Nat
  access : Permission
deriving DecidableEq, Repr

/-- Log of calls made to the external collaborators, in order:
the primitive allocation calls, the lengths passed to the sized pressure
notification, and how many times the parameterless pressure fallback ran. -/
structure CallLog where
  allocCalls : List AllocCall
  pressureSizedCalls : List Nat
  pressurePlainCount : Nat
deriving DecidableEq, Repr

/-- The empty call log. -/
def CallLog.empty : CallLog := ⟨[], [], 0⟩

/-- `kAllocationTries` (line 62): the retry bound of the pressure-retry
policy. -/
def kAllocationTries : Nat := 2

/-- `OnCriticalMemoryPressure(size_t length)` (lines 220–227): invoke the
platform's sized pressure notification; if it reports `false`, invoke the
parameterless variant; in all cases return `true`. -/
def OnCriticalMemoryPressure (plat : PlatformModel) (length : Nat)
    (log : CallLog) : Bool × CallLog :=
  let log := { log with pressureSizedCalls := log.pressureSizedCalls ++ [length] }
  let log :=
    if plat.sizedPressureResult length then log
    else { log with pressurePlainCount := log.pressurePlainCount + 1 }
  (true, log)

/-- The retry loop body of `AllocatePages` (lines 156–162), by recursion on the
remaining tries; `i` is the loop counter, numbering the primitive allocation
calls.  Returns the resulting address (`0` on exhaustion) and the log. -/
def AllocatePagesLoop (pa : PageAllocatorModel) (plat : PlatformModel)
    (hint size alignment : Nat) (access : Permission) :
    Nat → Nat → CallLog → Nat × CallLog
  | _, 0, log => (0, log)
  | i, tries + 1, log =>
    let result := pa.allocResult i
    let log := { log with allocCalls := log.allocCalls ++ [⟨hint, size, alignment, access⟩] }
    if result ≠ 0 then (result, log)
    else
      let request_size := size + alignment - pa.allocatePageSize
      let step := OnCriticalMemoryPressure plat request_size log
      if step.1 then AllocatePagesLoop pa plat hint size alignment access (i + 1) tries step.2
      else (0, step.2)

/-- `AllocatePages(page_allocator, address, size, alignment, access)`
(lines 150–171): run the primitive allocation under the pressure-retry policy,
up to `kAllocationTries` attempts.  The source's `DCHECK`s (hint aligned, size
a multiple of the allocate-page granularity) are debug-build preconditions and
appear as hypotheses of the theorems. -/
def AllocatePages (pa : PageAllocatorModel) (plat : PlatformModel)
    (address size alignment : Nat) (access : Permission) : Nat × CallLog :=
  AllocatePagesLoop pa plat address size alignment access 0 kAllocationTries CallLog.empty

/-- `FreePages(page_allocator, address, size)` (lines 173–186): a single,
unretried call to the primitive free operation. -/
def FreePages (pa : PageAllocatorModel) (address size : Nat) : Bool :=
  pa.freePagesResult address size

/-- `ReleasePages(page_allocator, address, size, new_size)` (lines 188–202):
a single, unretried call to the primitive tail-release operation. -/
def ReleasePages (pa : PageAllocatorModel) (address size new_size : Nat) : Bool :=
  pa.releasePagesResult address size new_size

/-- `SetPermissions(page_allocator, address, size, access)` (lines 204–208):
direct delegation to the primitive permission-change operation, no retry. -/
def SetPermissions (pa : PageAllocatorModel) (address size : Nat)
    (access : Permission) : Bool :=
  pa.setPermissionsResult address size access

/-- `AllocatePage(page_allocator, address, allocated)` (lines 210–218): reserve
one allocate-granularity page with read-write permission.  The C++ out
parameter `allocated` (written only on success) becomes part of the returned
`Option` pair. -/
def AllocatePage (pa : PageAllocatorModel) (plat : PlatformModel)
    (address : Nat) : Option (Nat × Nat) × CallLog :=
  let page_size := pa.allocatePageSize
  let res := AllocatePages pa plat address page_size page_size Permission.kReadWrite
  if res.1 ≠ 0 then (some (res.1, page_size), res.2) else (none, res.2)

/-- Modelled from the spec: `RoundUp` comes from `src/utils.h`, which is not in
the sources; the spec says sizes are "rounded up to the allocator's page
granularity", i.e. to the least multiple of `m` that is `≥ x` (granularities
are powers of two, so this agrees with the header's bit trick). -/
def RoundUp (x m : Nat) : Nat := ((x + m - 1) / m) * m

/-- The `VirtualMemory` reservation handle state: the three fields
`page_allocator_`, `address_`, `size_` (declared in `src/allocation.h`).
`none` / `0` / `0` model `nullptr` / `kNullAddress` / `0`. -/
structure VirtualMemory where
  page_allocator_ : Option PageAllocatorModel
  address_ : Nat
  size_ : Nat

/-- Modelled from the spec: `VirtualMemory::IsReserved` is declared in
`src/allocation.h`, which is not in the sources; per the spec a handle is
Reserved exactly when it holds a reservation, i.e. its base address is not the
null sentinel. -/
def VirtualMemory.IsReserved (vm : VirtualMemory) : Bool :=
  vm.address_ != 0

/-- Modelled from the spec: `VirtualMemory::InVM(address, size)` is declared in
`src/allocation.h`, which is not in the sources; per the spec it checks that
the sub-range `[address, address + size)` lies entirely within the handle's
reserved range. -/
def VirtualMemory.InVM (vm : VirtualMemory) (address size : Nat) : Bool :=
  vm.address_ ≤ address && address + size ≤ vm.address_ + vm.size_

/-- `VirtualMemory::Reset()` (lines 249–253): null all three fields. -/
def VirtualMemory.Reset (vm : VirtualMemory) : VirtualMemory :=
  { vm with page_allocator_ := none, address_ := 0, size_ := 0 }

/-- The allocating constructor
`VirtualMemory::VirtualMemory(page_allocator, size, hint, alignment)`
(lines 229–241): the member initializers set `page_allocator_` to the argument
and `address_`/`size_` to the null sentinels; then alignment and size are
rounded up to the allocate-page granularity and `AllocatePages` is run with
`kNoAccess`; on success (non-null result) `size_` becomes the rounded size. -/
def VirtualMemory.construct (page_allocator : PageAllocatorModel)
    (plat : PlatformModel) (size hint alignment : Nat) :
    VirtualMemory × CallLog :=
  let page_size := page_allocator.allocatePageSize
  let alignment' := RoundUp alignment page_size
  let size' := RoundUp size page_size
  let res := AllocatePages page_allocator plat hint size' alignment' Permission.kNoAccess
  if res.1 ≠ 0 then
    ({ page_allocator_ := some page_allocator, address_ := res.1, size_ := size' }, res.2)
  else
    ({ page_allocator_ := some page_allocator, address_ := 0, size_ := 0 }, res.2)

/-- A recorded `FreePages` primitive call: its arguments, its boolean result,
and the handle state at the moment the call is made. -/
structure FreePagesCall where
  address : Nat
  size : Nat
  result : Bool
  stateAtCall : VirtualMemory

/-- A recorded `ReleasePages` primitive call: its arguments, its boolean
result, and the handle state at the moment the call is made. -/
structure ReleasePagesCall where
  address : Nat
  size : Nat
  new_size : Nat
  result : Bool
  stateAtCall : VirtualMemory

/-- `VirtualMemory::Free()` (lines 280–293): capture
`(page_allocator_, address_, size_)` into locals, `CHECK(InVM(address, size))`,
reset the handle, then call `FreePages` with the captured address and the
captured size rounded up to the allocate-page granularity;
`CHECK` the result.  `none` models a failed `CHECK` (process abort).
`DCHECK(IsReserved())` is a debug no-op, modelled as a theorem hypothesis. -/
def VirtualMemory.Free (vm : VirtualMemory) :
    Option (VirtualMemory × FreePagesCall) :=
  match vm.page_allocator_ with
  | none => none
  | some page_allocator =>
    let address := vm.address_
    let size := vm.size_
    if vm.InVM address size then
      let vm' := vm.Reset
      let callSize := RoundUp size page_allocator.allocatePageSize
      let ok := FreePages page_allocator address callSize
      if ok then some (vm', ⟨address, callSize, ok, vm'⟩) else none
    else none

/-- `VirtualMemory::Release(free_start)` (lines 264–278): compute
`free_size = size_ - (free_start - address_)`, remember `old_size = size_`,
`CHECK(InVM(free_start, free_size))`, shrink `size_` by `free_size`, then call
`ReleasePages(page_allocator_, address_, old_size, size_)` and `CHECK` its
result; return `free_size`.  The `DCHECK`s (handle reserved, `free_start`
commit-aligned and strictly inside the range) are debug no-ops, modelled as
theorem hypotheses. -/
def VirtualMemory.Release (vm : VirtualMemory) (free_start : Nat) :
    Option (VirtualMemory × Nat × ReleasePagesCall) :=
  match vm.page_allocator_ with
  | none => none
  | some page_allocator =>
    let free_size := vm.size_ - (free_start - vm.address_)
    let old_size := vm.size_
    if vm.InVM free_start free_size then
      let vm' := { vm with size_ := vm.size_ - free_size }
      let ok := ReleasePages page_allocator vm'.address_ old_size vm'.size_
      if ok then some (vm', free_size, ⟨vm'.address_, old_size, vm'.size_, ok, vm'⟩)
      else none
    else none

/-- Alias for the free function `SetPermissions`: inside the body of
`VirtualMemory.SetPermissions` the bare name would resolve to the method
itself (as `v8::internal::SetPermissions` would without the explicit
qualification the source uses at line 259). -/
def SetPermissionsFn : PageAllocatorModel → Nat → Nat → Permission → Bool :=
  SetPermissions

/-- `VirtualMemory::SetPermissions(address, size, access)` (lines 255–262):
`CHECK(InVM(address, size))`, then delegate once to the free function
`SetPermissions` and return its boolean result (the source's
`DCHECK(result)` is a debug no-op and does not alter the returned value). -/
def VirtualMemory.SetPermissions (vm : VirtualMemory) (address size : Nat)
    (access : Permission) : Option Bool :=
  match vm.page_allocator_ with
  | none => none
  | some page_allocator =>
    if vm.InVM address size then
      some (SetPermissionsFn page_allocator address size access)
    else none

/-- `VirtualMemory::TakeControl(from)` (lines 295–301): copy the three fields
from the source handle into `this`, then reset the source.  Returns
(new `this`, new `from`).  `DCHECK(!IsReserved())` on the destination is a
debug no-op, modelled as a theorem hypothesis. -/
def VirtualMemory.TakeControl (vm src : VirtualMemory) :
    VirtualMemory × VirtualMemory :=
  let vm' := { vm with
    page_allocator_ := src.page_allocator_
    address_ := src.address_
    size_ := src.size_ }
  (vm', src.Reset)

/-! Concrete collaborator models used by counterexamples and witnesses. -/

/-- A platform whose sized pressure notification always reports `true`. -/
def platTrue : PlatformModel := ⟨fun _ => true⟩

/-- A simulated page allocator that fails every allocation attempt. -/
def paAlwaysFail : PageAllocatorModel :=
  ⟨4096, 4096, fun _ => 0, fun _ _ => true, fun _ _ _ => true, fun _ _ _ => true⟩

/-- A simulated page allocator that fails its first allocation attempt and
succeeds (at address 8192) on the second. -/
def paSecondTry : PageAllocatorModel :=
  ⟨4096, 4096, fun i => if i = 0 then 0 else 8192,
   fun _ _ => true, fun _ _ _ => true, fun _ _ _ => true⟩


/-- The handle invariant as the spec states it (§3 Data model), for comparison
with the code: "(allocator == none) ⇔ (base_address == null) ⇔ (size == 0)". -/
def SpecInvariant (vm : VirtualMemory) : Prop :=
  (vm.page_allocator_ = none ↔ vm.address_ = 0) ∧
  (vm.address_ = 0 ↔ vm.size_ = 0)

/-- A concrete Empty handle. -/
def vmEmpty : VirtualMemory := ⟨none, 0, 0⟩

/-- A concrete Reserved handle: 3 pages at address 8192 of the simulated
allocator. -/
def vmReserved : VirtualMemory := ⟨some paAlwaysFail, 8192, 12288⟩

/-! Helper lemmas about the pressure wrapper and the retry loop's call log. -/

theorem OnCriticalMemoryPressure_fst (plat : PlatformModel) (length : Nat)
    (log : CallLog) : (OnCriticalMemoryPressure plat length log).1 = true := by
  unfold OnCriticalMemoryPressure
  split <;> rfl

theorem OnCriticalMemoryPressure_allocCalls (plat : PlatformModel) (length : Nat)
    (log : CallLog) :
    (OnCriticalMemoryPressure plat length log).2.allocCalls = log.allocCalls := by
  unfold OnCriticalMemoryPressure
  split <;> rfl

theorem OnCriticalMemoryPressure_sized (plat : PlatformModel) (length : Nat)
    (log : CallLog) :
    (OnCriticalMemoryPressure plat length log).2.pressureSizedCalls =
      log.pressureSizedCalls ++ [length] := by
  unfold OnCriticalMemoryPressure
  split <;> rfl

theorem AllocatePagesLoop_allocCalls_mem (pa : PageAllocatorModel)
    (plat : PlatformModel) (hint size alignment : Nat) (access : Permission) :
    ∀ (tries i : Nat) (log : CallLog),
      ∀ c ∈ (AllocatePagesLoop pa plat hint size alignment access i tries log).2.allocCalls,
        c ∈ log.allocCalls ∨ c = ⟨hint, size, alignment, access⟩ := by
  intro tries
  induction tries with
  | zero => intro i log c hc; exact Or.inl hc
  | succ t ih =>
    intro i log c hc
    rw [AllocatePagesLoop] at hc
    by_cases h0 : pa.allocResult i ≠ 0
    · rw [if_pos h0] at hc
      simp only [List.mem_append, List.mem_singleton] at hc
      exact hc
    · rw [if_neg h0, if_pos (OnCriticalMemoryPressure_fst _ _ _)] at hc
      rcases ih (i + 1) _ c hc with hmem | heq
      · rw [OnCriticalMemoryPressure_allocCalls] at hmem
        simp only [List.mem_append, List.mem_singleton] at hmem
        exact hmem
      · exact Or.inr heq

theorem AllocatePagesLoop_sized_mem (pa : PageAllocatorModel)
    (plat : PlatformModel) (hint size alignment : Nat) (access : Permission) :
    ∀ (tries i : Nat) (log : CallLog),
      ∀ x ∈ (AllocatePagesLoop pa plat hint size alignment access i tries log).2.pressureSizedCalls,
        x ∈ log.pressureSizedCalls ∨ x = size + alignment - pa.allocatePageSize := by
  intro tries
  induction tries with
  | zero => intro i log x hx; exact Or.inl hx
  | succ t ih =>
    intro i log x hx
    rw [AllocatePagesLoop] at hx
    by_cases h0 : pa.allocResult i ≠ 0
    · rw [if_pos h0] at hx
      exact Or.inl hx
    · rw [if_neg h0, if_pos (OnCriticalMemoryPressure_fst _ _ _)] at hx
      rcases ih (i + 1) _ x hx with hmem | heq
      · rw [OnCriticalMemoryPressure_sized] at hmem
        simp only [List.mem_append, List.mem_singleton] at hmem
        rcases hmem with hm | hm
        · exact Or.inl hm
        · exact Or.inr hm
      · exact Or.inr heq

/-- C1 counterexample: with a simulated allocator that fails every attempt, the
retry loop of `AllocatePages` returns the null sentinel but fires two pressure
notifications, not (bound − 1) = 1 as the claim states. -/
theorem C1_counterexample :
    (AllocatePages paAlwaysFail platTrue 0 4096 4096 Permission.kNoAccess).1 = 0 ∧
    (AllocatePages paAlwaysFail platTrue 0 4096 4096
        Permission.kNoAccess).2.pressureSizedCalls.length ≠ 1 := by
  decide

/-- C1 (amended): for every allocation wrapped in the pressure-retry policy
(`AllocatePages`, bound `kAllocationTries = 2`): if the underlying allocator
fails the first attempt and succeeds on the second, the overall call succeeds
and exactly one pressure notification is fired; if the allocator fails every
attempt, the overall call returns the null failure sentinel, the loop
terminates after exactly `kAllocationTries` primitive attempts, and exactly
`kAllocationTries` = 2 notifications are fired (not bound − 1: the source
notifies after every failed attempt, the last one included). -/
theorem C1_retry_policy (pa : PageAllocatorModel) (plat : PlatformModel)
    (hint size alignment : Nat) (access : Permission) :
    (pa.allocResult 0 = 0 → pa.allocResult 1 ≠ 0 →
      (AllocatePages pa plat hint size alignment access).1 = pa.allocResult 1 ∧
      (AllocatePages pa plat hint size alignment access).2.pressureSizedCalls.length = 1) ∧
    (pa.allocResult 0 = 0 → pa.allocResult 1 = 0 →
      (AllocatePages pa plat hint size alignment access).1 = 0 ∧
      (AllocatePages pa plat hint size alignment access).2.pressureSizedCalls.length
        = kAllocationTries ∧
      (AllocatePages pa plat hint size alignment access).2.allocCalls.length
        = kAllocationTries) := by
  constructor
  · intro h1 h2
    by_cases hp : plat.sizedPressureResult (size + alignment - pa.allocatePageSize) = true <;>
      simp [AllocatePages, kAllocationTries, AllocatePagesLoop, OnCriticalMemoryPressure,
        CallLog.empty, h1, h2, hp]
  · intro h1 h2
    by_cases hp : plat.sizedPressureResult (size + alignment - pa.allocatePageSize) = true <;>
      simp [AllocatePages, kAllocationTries, AllocatePagesLoop, OnCriticalMemoryPressure,
        CallLog.empty, h1, h2, hp]

/-- C1 witness: the amended theorem instantiated at the two simulated
allocators. -/
theorem C1_retry_policy_witness :
    ((AllocatePages paSecondTry platTrue 0 4096 4096 Permission.kNoAccess).1
        = paSecondTry.allocResult 1 ∧
      (AllocatePages paSecondTry platTrue 0 4096 4096
          Permission.kNoAccess).2.pressureSizedCalls.length = 1) ∧
    ((AllocatePages paAlwaysFail platTrue 0 4096 4096 Permission.kNoAccess).1 = 0 ∧
      (AllocatePages paAlwaysFail platTrue 0 4096 4096
          Permission.kNoAccess).2.pressureSizedCalls.length = kAllocationTries ∧
      (AllocatePages paAlwaysFail platTrue 0 4096 4096
          Permission.kNoAccess).2.allocCalls.length = kAllocationTries) :=
  ⟨(C1_retry_policy paSecondTry platTrue 0 4096 4096 Permission.kNoAccess).1
      (by decide) (by decide),
   (C1_retry_policy paAlwaysFail platTrue 0 4096 4096 Permission.kNoAccess).2
      (by decide) (by decide)⟩

/-- C7: `OnCriticalMemoryPressure` always returns `true` to its caller,
records the sized notification, invokes the parameterless fallback exactly when
the platform's sized variant reports `false`, and consequently the retry loop
never aborts early on account of the notification's result: under an allocator
that always fails it still makes the full `kAllocationTries` attempts. -/
theorem C7_pressure_always_true (plat : PlatformModel) (length : Nat)
    (log : CallLog) :
    (OnCriticalMemoryPressure plat length log).1 = true ∧
    (OnCriticalMemoryPressure plat length log).2.pressureSizedCalls
      = log.pressureSizedCalls ++ [length] ∧
    (OnCriticalMemoryPressure plat length log).2.pressurePlainCount
      = log.pressurePlainCount
          + (if plat.sizedPressureResult length then 0 else 1) ∧
    ∀ (pa : PageAllocatorModel) (hint size alignment : Nat) (access : Permission),
      (∀ i, pa.allocResult i = 0) →
      (AllocatePages pa plat hint size alignment access).2.allocCalls.length
        = kAllocationTries := by
  refine ⟨OnCriticalMemoryPressure_fst _ _ _, OnCriticalMemoryPressure_sized _ _ _, ?_, ?_⟩
  · unfold OnCriticalMemoryPressure
    split <;> simp
  · intro pa hint size alignment access h
    by_cases hp : plat.sizedPressureResult (size + alignment - pa.allocatePageSize) = true <;>
      simp [AllocatePages, kAllocationTries, AllocatePagesLoop, OnCriticalMemoryPressure,
        CallLog.empty, h 0, h 1, hp]

/-- C7 witness: instantiation at a concrete platform and the always-failing
allocator. -/
theorem C7_pressure_always_true_witness :
    (OnCriticalMemoryPressure platTrue 4096 CallLog.empty).1 = true ∧
    (AllocatePages paAlwaysFail platTrue 0 4096 4096
        Permission.kNoAccess).2.allocCalls.length = kAllocationTries := by
  have h := C7_pressure_always_true platTrue 4096 CallLog.empty
  exact ⟨h.1, h.2.2.2 paAlwaysFail 0 4096 4096 Permission.kNoAccess (fun _ => rfl)⟩

/-- C8: every length passed to the pressure notification during
`AllocatePages(allocator, hint, size, alignment, access)` equals exactly
`size + alignment − allocate_page_size`. -/
theorem C8_request_size (pa : PageAllocatorModel) (plat : PlatformModel)
    (hint size alignment : Nat) (access : Permission)
    (hps : pa.allocatePageSize ≤ size + alignment) :
    ∀ x ∈ (AllocatePages pa plat hint size alignment access).2.pressureSizedCalls,
      x = size + alignment - pa.allocatePageSize ∧
      x + pa.allocatePageSize = size + alignment := by
  intro x hx
  rcases AllocatePagesLoop_sized_mem pa plat hint size alignment access
      kAllocationTries 0 CallLog.empty x hx with h | h
  · simp [CallLog.empty] at h
  · exact ⟨h, by omega⟩

/-- C8 witness: under the always-failing allocator a notification with the
claimed length is actually fired, and the theorem applies to it. -/
theorem C8_request_size_witness :
    (4096 : Nat) ∈ (AllocatePages paAlwaysFail platTrue 0 4096 4096
        Permission.kNoAccess).2.pressureSizedCalls ∧
    ∀ x ∈ (AllocatePages paAlwaysFail platTrue 0 4096 4096
        Permission.kNoAccess).2.pressureSizedCalls,
      x = 4096 + 4096 - paAlwaysFail.allocatePageSize ∧
      x + paAlwaysFail.allocatePageSize = 4096 + 4096 :=
  ⟨by decide,
   C8_request_size paAlwaysFail platTrue 0 4096 4096 Permission.kNoAccess (by decide)⟩

/-- C10: every primitive allocation issued by the allocating `VirtualMemory`
constructor requests the `kNoAccess` permission, whereas the single-page
convenience function `AllocatePage` requests `kReadWrite` for exactly one
allocate-granularity page. -/
theorem C10_permissions (pa : PageAllocatorModel) (plat : PlatformModel)
    (size hint alignment address : Nat) :
    (∀ c ∈ (VirtualMemory.construct pa plat size hint alignment).2.allocCalls,
        c.access = Permission.kNoAccess) ∧
    (∀ c ∈ (AllocatePage pa plat address).2.allocCalls,
        c.access = Permission.kReadWrite ∧ c.size = pa.allocatePageSize ∧
        c.alignment = pa.allocatePageSize) := by
  constructor
  · intro c hc
    have hlog : (VirtualMemory.construct pa plat size hint alignment).2
        = (AllocatePages pa plat hint (RoundUp size pa.allocatePageSize)
            (RoundUp alignment pa.allocatePageSize) Permission.kNoAccess).2 := by
      unfold VirtualMemory.construct
      dsimp only
      split <;> rfl
    rw [hlog] at hc
    rcases AllocatePagesLoop_allocCalls_mem pa plat hint _ _ Permission.kNoAccess
        kAllocationTries 0 CallLog.empty c hc with h | h
    · simp [CallLog.empty] at h
    · rw [h]
  · intro c hc
    have hlog : (AllocatePage pa plat address).2
        = (AllocatePages pa plat address pa.allocatePageSize
            pa.allocatePageSize Permission.kReadWrite).2 := by
      unfold AllocatePage
      dsimp only
      split <;> rfl
    rw [hlog] at hc
    rcases AllocatePagesLoop_allocCalls_mem pa plat address _ _ Permission.kReadWrite
        kAllocationTries 0 CallLog.empty c hc with h | h
    · simp [CallLog.empty] at h
    · rw [h]
      exact ⟨rfl, rfl, rfl⟩

/-- C10 witness: instantiation at the fail-then-succeed allocator. -/
theorem C10_permissions_witness :
    (∀ c ∈ (VirtualMemory.construct paSecondTry platTrue 10000 0 4096).2.allocCalls,
        c.access = Permission.kNoAccess) ∧
    (∀ c ∈ (AllocatePage paSecondTry platTrue 0).2.allocCalls,
        c.access = Permission.kReadWrite ∧ c.size = paSecondTry.allocatePageSize ∧
        c.alignment = paSecondTry.allocatePageSize) :=
  C10_permissions paSecondTry platTrue 10000 0 4096 0

theorem RoundUp_pos (x m : Nat) (hx : 0 < x) (hm : 0 < m) : 0 < RoundUp x m := by
  unfold RoundUp
  have h1 : m ≤ x + m - 1 := by omega
  have h2 : 1 ≤ (x + m - 1) / m := (Nat.one_le_div_iff hm).mpr h1
  calc 0 < 1 * m := by omega
    _ ≤ ((x + m - 1) / m) * m := Nat.mul_le_mul_right m h2

theorem SpecInvariant_reset (vm : VirtualMemory) : SpecInvariant vm.Reset := by
  constructor <;> simp [VirtualMemory.Reset]

/-- C2 counterexample: after the allocating constructor fails (always-failing
allocator), the handle keeps its allocator reference while address and size
are the null sentinels, so the spec's three-way equivalence
`(allocator = none) ⇔ (address = null) ⇔ (size = 0)` is violated. -/
theorem C2_counterexample :
    ¬ SpecInvariant (VirtualMemory.construct paAlwaysFail platTrue 4096 0 4096).1 := by
  intro h
  have h2 : (VirtualMemory.construct paAlwaysFail platTrue 4096 0 4096).1.address_ = 0 := by
    rfl
  have h1 := h.1.mpr h2
  rw [show (VirtualMemory.construct paAlwaysFail platTrue 4096 0
      4096).1.page_allocator_ = some paAlwaysFail from rfl] at h1
  exact Option.noConfusion h1

/-- C2 (amended): the equivalence `(base_address = null) ⇔ (size = 0)` holds
after every operation, and `Reset`, `Free`, `Release` and `TakeControl`
re-establish or preserve the full three-way equivalence with the allocator
field as well; but the allocating constructor stores the allocator reference
unconditionally, so on its failure path only the address/size half of the
invariant holds (the failed handle is `(some allocator, 0, 0)`). -/
theorem C2_invariant (pa : PageAllocatorModel) (plat : PlatformModel)
    (size hint alignment free_start : Nat) (vm src dst : VirtualMemory)
    (hps : 0 < pa.allocatePageSize) (hsize : 0 < size)
    (hinv : SpecInvariant vm) (hsrc : SpecInvariant src)
    (hlt : vm.address_ < free_start) :
    ((VirtualMemory.construct pa plat size hint alignment).1.page_allocator_ = some pa ∧
      ((VirtualMemory.construct pa plat size hint alignment).1.address_ = 0 ↔
        (VirtualMemory.construct pa plat size hint alignment).1.size_ = 0)) ∧
    SpecInvariant vm.Reset ∧
    (∀ vm' c, vm.Free = some (vm', c) → SpecInvariant vm') ∧
    (∀ vm' n c, vm.Release free_start = some (vm', n, c) → SpecInvariant vm') ∧
    (SpecInvariant (dst.TakeControl src).1 ∧ SpecInvariant (dst.TakeControl src).2) := by
  refine ⟨?_, SpecInvariant_reset vm, ?_, ?_, ?_, ?_⟩
  · unfold VirtualMemory.construct
    dsimp only
    split
    · rename_i hne
      refine ⟨rfl, ?_⟩
      dsimp only
      have hpos := RoundUp_pos size pa.allocatePageSize hsize hps
      omega
    · exact ⟨rfl, by simp⟩
  · intro vm' c h
    unfold VirtualMemory.Free at h
    cases hpa : vm.page_allocator_ with
    | none => rw [hpa] at h; exact Option.noConfusion h
    | some p =>
      rw [hpa] at h
      dsimp only at h
      split at h
      · split at h
        · simp only [Option.some.injEq, Prod.mk.injEq] at h
          rw [← h.1]
          exact SpecInvariant_reset vm
        · exact Option.noConfusion h
      · exact Option.noConfusion h
  · intro vm' n c h
    unfold VirtualMemory.Release at h
    cases hpa : vm.page_allocator_ with
    | none => rw [hpa] at h; exact Option.noConfusion h
    | some p =>
      rw [hpa] at h
      dsimp only at h
      have haddr : vm.address_ ≠ 0 := by
        intro h0
        have := hinv.1.mpr h0
        rw [hpa] at this
        exact Option.noConfusion this
      split at h
      · rename_i hvm
        split at h
        · simp only [Option.some.injEq, Prod.mk.injEq] at h
          obtain ⟨h1, -⟩ := h
          rw [← h1]
          simp only [VirtualMemory.InVM, Bool.and_eq_true, decide_eq_true_eq] at hvm
          obtain ⟨hA, hB⟩ := hvm
          refine ⟨?_, ?_⟩
          · simp only [hpa]
            constructor
            · intro hcc; exact Option.noConfusion hcc
            · intro hcc; exact absurd hcc haddr
          · constructor
            · intro hcc; exact absurd hcc haddr
            · intro hcc; exact absurd hcc (by simp only []; omega)
        · exact Option.noConfusion h
      · exact Option.noConfusion h
  · unfold VirtualMemory.TakeControl
    dsimp only
    exact hsrc
  · unfold VirtualMemory.TakeControl
    dsimp only
    exact SpecInvariant_reset src

/-- C2 witness: the amended invariant theorem instantiated at concrete
handles, with the Free and Release conclusions applied to the concrete
results. -/
theorem C2_invariant_witness :
    ((VirtualMemory.construct paSecondTry platTrue 4096 0 4096).1.page_allocator_
        = some paSecondTry ∧
      ((VirtualMemory.construct paSecondTry platTrue 4096 0 4096).1.address_ = 0 ↔
        (VirtualMemory.construct paSecondTry platTrue 4096 0 4096).1.size_ = 0)) ∧
    SpecInvariant vmReserved.Reset ∧
    SpecInvariant vmEmpty ∧
    SpecInvariant (⟨some paAlwaysFail, 8192, 8192⟩ : VirtualMemory) ∧
    (SpecInvariant (vmEmpty.TakeControl vmReserved).1 ∧
      SpecInvariant (vmEmpty.TakeControl vmReserved).2) := by
  have h := C2_invariant paSecondTry platTrue 4096 0 4096 16384 vmReserved vmReserved
    vmEmpty (by decide) (by decide)
    (by constructor <;> simp [vmReserved])
    (by constructor <;> simp [vmReserved]) (by decide)
  refine ⟨h.1, h.2.1, ?_, ?_, h.2.2.2.2⟩
  · exact h.2.2.1 vmEmpty ⟨8192, 12288, true, vmEmpty⟩ (by rfl)
  · exact h.2.2.2.1 ⟨some paAlwaysFail, 8192, 8192⟩ 4096
      ⟨8192, 12288, 8192, true, ⟨some paAlwaysFail, 8192, 8192⟩⟩ (by rfl)

/-- C3: for a Reserved handle with base address A and size S, `Release`
applied to an interior, commit-aligned `free_start` sets the stored size to
`k = free_start − A`, returns `S − k`, leaves the base address and the
allocator unchanged, and has already decremented the stored size at the moment
the underlying `ReleasePages` primitive is invoked with `(A, S, k)` (the
recorded `stateAtCall`). -/
theorem C3_release_tail (pa : PageAllocatorModel) (vm : VirtualMemory)
    (free_start : Nat)
    (hpa : vm.page_allocator_ = some pa)
    (hlo : vm.address_ < free_start)
    (hhi : free_start < vm.address_ + vm.size_)
    (_halign : free_start % pa.commitPageSize = 0)
    (hok : pa.releasePagesResult vm.address_ vm.size_
        (free_start - vm.address_) = true) :
    vm.Release free_start =
      some ({ vm with size_ := free_start - vm.address_ },
        vm.size_ - (free_start - vm.address_),
        ⟨vm.address_, vm.size_, free_start - vm.address_, true,
          { vm with size_ := free_start - vm.address_ }⟩) := by
  unfold VirtualMemory.Release
  rw [hpa]
  dsimp only
  have hk : vm.size_ - (vm.size_ - (free_start - vm.address_))
      = free_start - vm.address_ := by omega
  rw [if_pos (show vm.InVM free_start (vm.size_ - (free_start - vm.address_)) = true by
    simp only [VirtualMemory.InVM, Bool.and_eq_true, decide_eq_true_eq]
    omega)]
  simp only [ReleasePages, hk, hok]
  rw [if_pos trivial]

/-- C3 witness: releasing the tail of the concrete reserved handle from
offset 16384. -/
theorem C3_release_tail_witness :
    vmReserved.Release 16384 =
      some ({ vmReserved with size_ := 16384 - vmReserved.address_ },
        vmReserved.size_ - (16384 - vmReserved.address_),
        ⟨vmReserved.address_, vmReserved.size_, 16384 - vmReserved.address_, true,
          { vmReserved with size_ := 16384 - vmReserved.address_ }⟩) :=
  C3_release_tail paAlwaysFail vmReserved 16384 rfl (by decide) (by decide)
    (by decide) rfl

/-- C4: `TakeControl` copies the source's `(allocator, address, size)` triple
into the destination and resets the source to the Empty state `(none, 0, 0)`,
so that after the transfer the source is no longer Reserved and only the
destination describes the range. -/
theorem C4_take_control (dst src : VirtualMemory)
    (_hdst : dst.IsReserved = false) (_hsrc : src.IsReserved = true) :
    (dst.TakeControl src).1.page_allocator_ = src.page_allocator_ ∧
    (dst.TakeControl src).1.address_ = src.address_ ∧
    (dst.TakeControl src).1.size_ = src.size_ ∧
    (dst.TakeControl src).2 = ⟨none, 0, 0⟩ ∧
    (dst.TakeControl src).2.IsReserved = false :=
  ⟨rfl, rfl, rfl, rfl, rfl⟩

/-- C4 witness: transferring the concrete reserved handle into an empty
handle. -/
theorem C4_take_control_witness :
    (vmEmpty.TakeControl vmReserved).1.page_allocator_ = vmReserved.page_allocator_ ∧
    (vmEmpty.TakeControl vmReserved).1.address_ = vmReserved.address_ ∧
    (vmEmpty.TakeControl vmReserved).1.size_ = vmReserved.size_ ∧
    (vmEmpty.TakeControl vmReserved).2 = ⟨none, 0, 0⟩ ∧
    (vmEmpty.TakeControl vmReserved).2.IsReserved = false :=
  C4_take_control vmEmpty vmReserved rfl rfl

/-- C5: the allocating constructor rounds both `alignment` and `size` up to
the allocate-page granularity before reserving (every primitive allocation
call carries the rounded values); on success the handle is Reserved with the
address returned by `AllocatePages` and the rounded size; on failure it is not
reserved, with null address and zero size — and the embedding of the
constructor is total, i.e. failure does not abort. -/
theorem C5_construct (pa : PageAllocatorModel) (plat : PlatformModel)
    (size hint alignment : Nat) (_hps : 0 < pa.allocatePageSize) :
    ((VirtualMemory.construct pa plat size hint alignment).1.IsReserved = true →
      (VirtualMemory.construct pa plat size hint alignment).1.address_
        = (AllocatePages pa plat hint (RoundUp size pa.allocatePageSize)
            (RoundUp alignment pa.allocatePageSize) Permission.kNoAccess).1 ∧
      (VirtualMemory.construct pa plat size hint alignment).1.size_
        = RoundUp size pa.allocatePageSize) ∧
    ((AllocatePages pa plat hint (RoundUp size pa.allocatePageSize)
        (RoundUp alignment pa.allocatePageSize) Permission.kNoAccess).1 = 0 →
      (VirtualMemory.construct pa plat size hint alignment).1.IsReserved = false ∧
      (VirtualMemory.construct pa plat size hint alignment).1.address_ = 0 ∧
      (VirtualMemory.construct pa plat size hint alignment).1.size_ = 0) ∧
    (∀ c ∈ (VirtualMemory.construct pa plat size hint alignment).2.allocCalls,
      c.size = RoundUp size pa.allocatePageSize ∧
      c.alignment = RoundUp alignment pa.allocatePageSize ∧ c.hint = hint) := by
  refine ⟨?_, ?_, ?_⟩
  · intro hres
    unfold VirtualMemory.construct at *
    dsimp only at *
    split at hres
    · rename_i hne
      rw [if_pos hne]
      exact ⟨rfl, rfl⟩
    · simp [VirtualMemory.IsReserved] at hres
  · intro hzero
    unfold VirtualMemory.construct
    dsimp only
    rw [if_neg (by simp [hzero])]
    exact ⟨rfl, rfl, rfl⟩
  · intro c hc
    have hlog : (VirtualMemory.construct pa plat size hint alignment).2
        = (AllocatePages pa plat hint (RoundUp size pa.allocatePageSize)
            (RoundUp alignment pa.allocatePageSize) Permission.kNoAccess).2 := by
      unfold VirtualMemory.construct
      dsimp only
      split <;> rfl
    rw [hlog] at hc
    rcases AllocatePagesLoop_allocCalls_mem pa plat hint _ _ Permission.kNoAccess
        kAllocationTries 0 CallLog.empty c hc with h | h
    · simp [CallLog.empty] at h
    · rw [h]
      exact ⟨rfl, rfl, rfl⟩

/-- C5 witness: the spec's scenario — page size 4096, requested size 10000 —
yields stored size 12288 at a 4096-aligned address. -/
theorem C5_construct_witness :
    (VirtualMemory.construct paSecondTry platTrue 10000 0 4096).1.IsReserved = true ∧
    (VirtualMemory.construct paSecondTry platTrue 10000 0 4096).1.size_ = 12288 ∧
    (VirtualMemory.construct paSecondTry platTrue 10000 0 4096).1.address_ % 4096 = 0 := by
  have h := C5_construct paSecondTry platTrue 10000 0 4096 (by decide)
  refine ⟨by decide, ?_, by decide⟩
  have h2 := (h.1 (by decide)).2
  rw [h2]
  decide

/-- C6: `Free` captures the triple, resets the handle to the Empty state, and
invokes `FreePages` with the captured address and the captured size rounded up
to allocate-page granularity; the recorded `stateAtCall` shows the handle
already Empty at the moment the primitive runs, and after `Free` the handle is
Empty. -/
theorem C6_free (pa : PageAllocatorModel) (vm : VirtualMemory)
    (hpa : vm.page_allocator_ = some pa)
    (_hres : vm.IsReserved = true)
    (hok : pa.freePagesResult vm.address_
        (RoundUp vm.size_ pa.allocatePageSize) = true) :
    vm.Free = some (⟨none, 0, 0⟩,
      ⟨vm.address_, RoundUp vm.size_ pa.allocatePageSize, true, ⟨none, 0, 0⟩⟩) := by
  unfold VirtualMemory.Free
  rw [hpa]
  dsimp only
  rw [if_pos (show vm.InVM vm.address_ vm.size_ = true by
    simp [VirtualMemory.InVM])]
  simp only [FreePages, hok]
  rw [if_pos trivial]
  rfl

/-- C6 witness: freeing the concrete reserved handle. -/
theorem C6_free_witness :
    vmReserved.Free = some (⟨none, 0, 0⟩,
      ⟨vmReserved.address_, RoundUp vmReserved.size_ paAlwaysFail.allocatePageSize,
        true, ⟨none, 0, 0⟩⟩) :=
  C6_free paAlwaysFail vmReserved rfl rfl rfl

/-- C9: `VirtualMemory::SetPermissions` fatally checks that the sub-range lies
inside the reservation (`none` models the failed `CHECK`), and otherwise
delegates once to the primitive set-permissions operation and returns its
boolean result to the caller rather than throwing. -/
theorem C9_set_permissions (pa : PageAllocatorModel) (vm : VirtualMemory)
    (address size : Nat) (access : Permission)
    (hpa : vm.page_allocator_ = some pa)
    (_hres : vm.IsReserved = true) :
    (vm.InVM address size = true →
      vm.SetPermissions address size access =
        some (pa.setPermissionsResult address size access)) ∧
    (vm.InVM address size = false →
      vm.SetPermissions address size access = none) := by
  constructor
  · intro h
    unfold VirtualMemory.SetPermissions
    rw [hpa]
    dsimp only
    rw [if_pos h]
    rfl
  · intro h
    unfold VirtualMemory.SetPermissions
    rw [hpa]
    dsimp only
    rw [if_neg (by simp [h])]

/-- C9 witness: a permission change inside the concrete reserved handle
succeeds with the primitive's result; one reaching past its end hits the
fatal check. -/
theorem C9_set_permissions_witness :
    vmReserved.SetPermissions 8192 4096 Permission.kReadWrite =
      some (paAlwaysFail.setPermissionsResult 8192 4096 Permission.kReadWrite) ∧
    vmReserved.SetPermissions 8192 99999 Permission.kReadWrite = none :=
  ⟨(C9_set_permissions paAlwaysFail vmReserved 8192 4096 Permission.kReadWrite
      rfl rfl).1 (by decide),
   (C9_set_permissions paAlwaysFail vmReserved 8192 99999 Permission.kReadWrite
      rfl rfl).2 (by decide)⟩
